import Mathlib

/-!
Shallow embedding of the geometric core of the cells2d3 tool (the six
near-duplicate front-ends in src/main.py, src/app.py, src/web/app.py,
src/web/processor.py and src/web2/app.py) and proofs about it.

Coordinates are real numbers; Python float arithmetic is modelled by exact
real arithmetic.  The scipy spline fit (splprep/splev), which can raise, is
abstracted as a `List Point → Option (List Point)` parameter, `none`
standing for the raised exception.  `float(text)` parsing is modelled by its
outcome, an `Option ℝ` (`none` = ValueError).
-/

/-- A 2D point, as QPointF in the Qt variants and (x, y) pairs / dicts in the
web variants. -/
structure Point where
  x : ℝ
  y : ℝ

instance : Inhabited Point := ⟨⟨0, 0⟩⟩

instance : Add Point := ⟨fun p q => ⟨p.x + q.x, p.y + q.y⟩⟩

instance : Sub Point := ⟨fun p q => ⟨p.x - q.x, p.y - q.y⟩⟩

/-- QPointF-by-scalar multiplication, `p * c` in the Python sources. -/
def Point.scale (p : Point) (c : ℝ) : Point := ⟨p.x * c, p.y * c⟩

/-- Qt's QPointF.manhattanLength of a difference vector: |dx| + |dy|. -/
def manhattanLength (p : Point) : ℝ := |p.x| + |p.y|

/-- Arithmetic mean of a list of reals (0 for the empty list, by the
Mathlib 0-division convention). -/
noncomputable def mean (l : List ℝ) : ℝ := l.sum / (l.length : ℝ)

/-- Modelled from library behavior: sklearn LinearRegression().fit(x, y)
with x the points' x coordinates and y their y coordinates, returning
coef_[0].  Ordinary least squares with intercept: slope = centered
covariance / centered variance of x.  For a degenerate (constant-x) cloud
the centered variance is 0 and the quotient is 0 by the Mathlib 0-division
convention, matching the minimum-norm least-squares solution sklearn's
lstsq returns there. -/
noncomputable def olsSlope (ps : List Point) : ℝ :=
  let xs := ps.map Point.x
  let ys := ps.map Point.y
  let xbar := mean xs
  let ybar := mean ys
  let sxy := (List.zipWith (fun a b => (a - xbar) * (b - ybar)) xs ys).sum
  let sxx := (xs.map (fun a => (a - xbar) ^ 2)).sum
  sxy / sxx

/-- The unit-normal computation shared by every create_roi variant:
normal_x = -slope, normal_y = 1, norm = sqrt(normal_x**2 + normal_y**2),
unit_normal = (normal_x / norm, normal_y / norm). -/
noncomputable def unitNormal (slope : ℝ) : Point :=
  ⟨(-slope) / Real.sqrt ((-slope) ^ 2 + 1 ^ 2),
   1 / Real.sqrt ((-slope) ^ 2 + 1 ^ 2)⟩

/-- State of the desktop tool in src/main.py relevant to the geometric core:
self.points and self.roi_lines. -/
structure MainState where
  points : List Point
  roi_lines : List (Point × Point)

/-- BezierSplineTool.create_roi of src/main.py (lines 194-233).  The two
QLineEdit texts are modelled by their float-parse outcome; `none` is the
ValueError branch, which returns leaving the state untouched.  Fewer than 2
points returns untouched as well.  Otherwise the three linear-style ROI
segments first → shifted-first → shifted-last → last are stored. -/
noncomputable def create_roi (st : MainState)
    (pixel_um_text depth_um_text : Option ℝ) : MainState :=
  if st.points.length < 2 then st
  else
    match pixel_um_text, depth_um_text with
    | some pixel_um, some depth_um =>
      let depth_pixels := depth_um * pixel_um
      let slope := olsSlope st.points
      let unit_normal := unitNormal slope
      let first_point := st.points.headI
      let last_point := st.points.getLastI
      let shifted_first_point := first_point + unit_normal.scale depth_pixels
      let shifted_last_point := last_point + unit_normal.scale depth_pixels
      { st with
          roi_lines := [(first_point, shifted_first_point),
                        (shifted_first_point, shifted_last_point),
                        (shifted_last_point, last_point)] }
    | _, _ => st

open Classical in
/-- BezierSplineTool.mousePressEvent right-button branch of src/main.py
(lines 133-140) and src/app.py (147-153): if the point list is nonempty,
keep exactly the points whose Manhattan length to the click is > 10. -/
noncomputable def remove_near (scene_pos : Point) (points : List Point) :
    List Point :=
  if points.isEmpty then points
  else points.filter (fun p => decide (manhattanLength (p - scene_pos) > 10))

open Classical in
/-- remove_point of src/web2/app.py (lines 74-84): keep exactly the points
with |px - x| > 10 or |py - y| > 10 (an axis-wise, i.e. Chebyshev-ball,
test — not the Manhattan test of the Qt variants). -/
noncomputable def web2_remove_point (q : Point) (points : List Point) :
    List Point :=
  points.filter (fun p => decide (|p.x - q.x| > 10 ∨ |p.y - q.y| > 10))

/-- State of the MCD-viewer tool of src/app.py relevant to the core:
self.points, self.roi_lines and self.shifted_points. -/
structure AppState where
  points : List Point
  roi_lines : List (Point × Point)
  shifted_points : List Point

/-- BezierSplineTool.create_roi of src/app.py (lines 219-274).  Fewer than 2
points or a float ValueError returns with the state untouched.  With
radio_linear checked, only the first and last points are shifted and the
three linear-style segments are stored (shifted_points is set to []);
otherwise every point is shifted by the same unit_normal * depth_pixels
into shifted_points and the two end connectors are stored. -/
noncomputable def app_create_roi (st : AppState)
    (pixel_um_text depth_um_text : Option ℝ) (radio_linear : Bool) :
    AppState :=
  if st.points.length < 2 then st
  else
    match pixel_um_text, depth_um_text with
    | some pixel_um, some depth_um =>
      let depth_pixels := depth_um * pixel_um
      let unit_normal := unitNormal (olsSlope st.points)
      if radio_linear then
        let first_point := st.points.headI
        let last_point := st.points.getLastI
        let shifted_first_point := first_point + unit_normal.scale depth_pixels
        let shifted_last_point := last_point + unit_normal.scale depth_pixels
        { st with
            shifted_points := [],
            roi_lines := [(first_point, shifted_first_point),
                          (shifted_first_point, shifted_last_point),
                          (shifted_last_point, last_point)] }
      else
        let shifted := st.points.map (fun p => p + unit_normal.scale depth_pixels)
        { st with
            shifted_points := shifted,
            roi_lines := [(st.points.headI, shifted.headI),
                          (st.points.getLastI, shifted.getLastI)] }
    | _, _ => st

/-- BezierSplineTool.reset_roi of src/app.py (lines 276-278): clears
self.roi_lines only; self.points and self.shifted_points are not touched. -/
def app_reset_roi (st : AppState) : AppState :=
  { st with roi_lines := [] }

/-- BezierSplineTool.clear_area of src/app.py (lines 287-290): clears
roi_lines, points and shifted_points. -/
def app_clear_area (st : AppState) : AppState :=
  { st with roi_lines := [], points := [], shifted_points := [] }

/-- Module-level state of the Flask app in src/web2/app.py relevant to the
core: points, roi_lines, pixel_um, depth_um. -/
structure Web2State where
  points : List Point
  roi_lines : List (Point × Point)
  pixel_um : ℝ
  depth_um : ℝ

/-- update_params of src/web2/app.py (lines 103-115).  The two raw JSON
values are modelled by their float-parse outcome.  The Boolean result is
true for the 200 response and false for the 400 'Invalid pixel/um or depth'
response.  Mirrors the Python control flow exactly: `pixel_um = float(...)`
is executed (and the global assigned) before `depth_um = float(...)` can
raise, and the ValueError handler runs after whatever assignments already
happened. -/
def web2_update_params (st : Web2State)
    (pixel_um_raw depth_um_raw : Option ℝ) : Web2State × Bool :=
  match pixel_um_raw with
  | none => (st, false)
  | some pu =>
    match depth_um_raw with
    | none => ({ st with pixel_um := pu }, false)
    | some du => ({ st with pixel_um := pu, depth_um := du }, true)

/-- create_roi of src/web2/app.py (lines 117-162).  Uses the stored
pixel_um and depth_um (no parsing here).  Fewer than 2 points returns the
400 'Not enough points to create ROI' response, modelled by the false flag,
with the state untouched; otherwise the three linear-style segments are
stored and the 200 response (true) is returned.  The except branch (500) is
unreachable in the real-arithmetic model of the body. -/
noncomputable def web2_create_roi (st : Web2State) : Web2State × Bool :=
  if st.points.length < 2 then (st, false)
  else
    let depth_pixels := st.depth_um * st.pixel_um
    let unit_normal := unitNormal (olsSlope st.points)
    let first_point := st.points.headI
    let last_point := st.points.getLastI
    let shifted_first_point := first_point + unit_normal.scale depth_pixels
    let shifted_last_point := last_point + unit_normal.scale depth_pixels
    ({ st with
        roi_lines := [(first_point, shifted_first_point),
                      (shifted_first_point, shifted_last_point),
                      (shifted_last_point, last_point)] }, true)

/-- reset_roi of src/web2/app.py (lines 164-168) and of src/web/app.py and
src/web/processor.py: clears roi_lines only. -/
def web2_reset_roi (st : Web2State) : Web2State :=
  { st with roi_lines := [] }

/-- create_bezier_spline as in src/main.py (lines 254-268), src/app.py,
src/web/app.py and src/web/processor.py.  The scipy splprep/splev pipeline
is abstracted by fit_spline; `none` models the raised exception, whose
handler returns the raw input points in order.  Fewer than 2 points returns
the empty list. -/
def create_bezier_spline (fit_spline : List Point → Option (List Point))
    (points : List Point) : List Point :=
  if points.length < 2 then []
  else
    match fit_spline points with
    | some samples => samples
    | none => points

/-- create_bezier_spline of src/web2/app.py (lines 170-184): identical to
the other variants except that the exception handler returns the empty
list instead of the raw input points. -/
def web2_create_bezier_spline (fit_spline : List Point → Option (List Point))
    (points : List Point) : List Point :=
  if points.length < 2 then []
  else
    match fit_spline points with
    | some samples => samples
    | none => []

/-- State of ImageProcessor in src/web/processor.py relevant to the core:
self.points and self.roi_lines. -/
structure ProcState where
  points : List Point
  roi_lines : List (Point × Point)

/-- ImageProcessor.create_roi of src/web/processor.py (lines 51-94).
pixel_um and depth_um arrive as floats (no parsing).  Fewer than 2 points
returns the state untouched (the method then just redraws); otherwise the
three linear-style segments are stored.  The except branch is unreachable
in the real-arithmetic model of the body. -/
noncomputable def processor_create_roi (st : ProcState)
    (pixel_um depth_um : ℝ) : ProcState :=
  if st.points.length < 2 then st
  else
    let depth_pixels := depth_um * pixel_um
    let unit_normal := unitNormal (olsSlope st.points)
    let first_point := st.points.headI
    let last_point := st.points.getLastI
    let shifted_first_point := first_point + unit_normal.scale depth_pixels
    let shifted_last_point := last_point + unit_normal.scale depth_pixels
    { st with
        roi_lines := [(first_point, shifted_first_point),
                      (shifted_first_point, shifted_last_point),
                      (shifted_last_point, last_point)] }

/-- ImageProcessor.reset_roi of src/web/processor.py (lines 29-32): clears
roi_lines only. -/
def processor_reset_roi (st : ProcState) : ProcState :=
  { st with roi_lines := [] }

/-- Unfolding lemma for Point addition. -/
@[simp] theorem Point.add_def (p q : Point) :
    p + q = ⟨p.x + q.x, p.y + q.y⟩ := rfl

/-- Unfolding lemma for Point subtraction. -/
@[simp] theorem Point.sub_def (p q : Point) :
    p - q = ⟨p.x - q.x, p.y - q.y⟩ := rfl

/-- C8: for every finite regression slope m the computed normal
((-m)/sqrt(m^2+1), 1/sqrt(m^2+1)) has Euclidean length exactly 1 in real
arithmetic (so no NaN component can arise), including the slope olsSlope
yields on any point cloud — in particular the degenerate vertical cloud,
where the centered variance is 0 and olsSlope returns 0. -/
theorem unit_normal_unit_length :
    (∀ m : ℝ,
      Real.sqrt ((unitNormal m).x ^ 2 + (unitNormal m).y ^ 2) = 1) ∧
    ∀ ps : List Point,
      Real.sqrt ((unitNormal (olsSlope ps)).x ^ 2 +
        (unitNormal (olsSlope ps)).y ^ 2) = 1 := by
  have key : ∀ m : ℝ,
      Real.sqrt ((unitNormal m).x ^ 2 + (unitNormal m).y ^ 2) = 1 := by
    intro m
    have ht : (0 : ℝ) < (-m) ^ 2 + 1 ^ 2 := by positivity
    have hs : Real.sqrt ((-m) ^ 2 + 1 ^ 2) ^ 2 = (-m) ^ 2 + 1 ^ 2 :=
      Real.sq_sqrt ht.le
    have hx : (unitNormal m).x ^ 2 + (unitNormal m).y ^ 2 = 1 := by
      simp only [unitNormal]
      rw [div_pow, div_pow, hs, div_add_div_same, div_self ht.ne']
    rw [hx, Real.sqrt_one]
  exact ⟨key, fun ps => key (olsSlope ps)⟩

/-- C10: both remove-near variants (Qt manhattanLength in src/main.py and
the axis-wise test in src/web2/app.py) return an order-preserving
subsequence of the input list: removal never adds, duplicates or reorders
points, and every surviving point is identical to its original. -/
theorem remove_point_sublist (q : Point) (ps : List Point) :
    (remove_near q ps).Sublist ps ∧ (web2_remove_point q ps).Sublist ps := by
  constructor
  · unfold remove_near
    split
    · exact List.Sublist.refl ps
    · exact List.filter_sublist ps
  · exact List.filter_sublist ps

/-- C1: with at least 2 points and parseable parameters, linear-style
create_roi (src/main.py, and the src/web2 variant with its stored
parameters) stores exactly 3 ROI segments forming the path
first → shifted-first → shifted-last → last, both shifts equal to
unit_normal * (depth_um * pixel_um); the primary point list is unchanged,
so no interior primary point is offset. -/
theorem create_roi_linear_three_segments (st : MainState) (w : Web2State)
    (pixel_um depth_um : ℝ)
    (h : 2 ≤ st.points.length) (hw : 2 ≤ w.points.length) :
    (create_roi st (some pixel_um) (some depth_um)).roi_lines =
        [(st.points.headI,
          st.points.headI +
            (unitNormal (olsSlope st.points)).scale (depth_um * pixel_um)),
         (st.points.headI +
            (unitNormal (olsSlope st.points)).scale (depth_um * pixel_um),
          st.points.getLastI +
            (unitNormal (olsSlope st.points)).scale (depth_um * pixel_um)),
         (st.points.getLastI +
            (unitNormal (olsSlope st.points)).scale (depth_um * pixel_um),
          st.points.getLastI)] ∧
      (create_roi st (some pixel_um) (some depth_um)).points = st.points ∧
      (web2_create_roi w).1.roi_lines =
        [(w.points.headI,
          w.points.headI +
            (unitNormal (olsSlope w.points)).scale (w.depth_um * w.pixel_um)),
         (w.points.headI +
            (unitNormal (olsSlope w.points)).scale (w.depth_um * w.pixel_um),
          w.points.getLastI +
            (unitNormal (olsSlope w.points)).scale (w.depth_um * w.pixel_um)),
         (w.points.getLastI +
            (unitNormal (olsSlope w.points)).scale (w.depth_um * w.pixel_um),
          w.points.getLastI)] ∧
      (web2_create_roi w).1.points = w.points ∧
      (web2_create_roi w).2 = true := by
  have hnot : ¬ st.points.length < 2 := by omega
  have hnotw : ¬ w.points.length < 2 := by omega
  unfold create_roi web2_create_roi
  simp [hnot, hnotw]

/-- Concrete desktop state used by the C1 witness. -/
noncomputable def mainStC1 : MainState := ⟨[⟨0, 0⟩, ⟨10, 0⟩], []⟩

/-- Concrete Flask state used by the C1 witness. -/
noncomputable def web2StC1 : Web2State := ⟨[⟨0, 0⟩, ⟨10, 0⟩], [], 1, 10⟩

/-- Witness for C1 at the concrete points (0,0), (10,0) with pixel_um 1
and depth_um 5, plus the stored web2 parameters 1 and 10. -/
theorem create_roi_linear_three_segments_witness :
    2 ≤ mainStC1.points.length ∧ 2 ≤ web2StC1.points.length ∧
      (create_roi mainStC1 (some 1) (some 5)).points = mainStC1.points ∧
      (web2_create_roi web2StC1).1.points = web2StC1.points ∧
      (web2_create_roi web2StC1).2 = true :=
  ⟨by decide, by decide,
    (create_roi_linear_three_segments mainStC1 web2StC1 1 5
      (by decide) (by decide)).2.1,
    (create_roi_linear_three_segments mainStC1 web2StC1 1 5
      (by decide) (by decide)).2.2.2.1,
    (create_roi_linear_three_segments mainStC1 web2StC1 1 5
      (by decide) (by decide)).2.2.2.2⟩

/-- Mapping commutes with headI on a nonempty list. -/
theorem headI_map_ne_nil (f : Point → Point) (l : List Point) (h : l ≠ []) :
    (l.map f).headI = f l.headI := by
  cases l with
  | nil => exact absurd rfl h
  | cons a t => simp

/-- Mapping commutes with getLast? on lists of points. -/
theorem getLast?_map_comm (f : Point → Point) : ∀ l : List Point,
    (l.map f).getLast? = l.getLast?.map f
  | [] => rfl
  | [a] => rfl
  | a :: b :: t => by
    have ih := getLast?_map_comm f (b :: t)
    simp only [List.map_cons] at *
    rw [List.getLast?_cons_cons, ih, List.getLast?_cons_cons]

/-- Mapping commutes with getLastI on a nonempty list. -/
theorem getLastI_map_ne_nil (f : Point → Point) (l : List Point) (h : l ≠ []) :
    (l.map f).getLastI = f l.getLastI := by
  rw [List.getLastI_eq_getLast?, List.getLastI_eq_getLast?, getLast?_map_comm]
  cases hl : l.getLast? with
  | none => exact absurd (List.getLast?_eq_none_iff.mp hl) h
  | some a => simp

/-- C2: with at least 2 points and parseable parameters, parallel-curve
style create_roi (src/app.py, radio_linear unchecked) builds an offset
sequence of exactly the same length as the primary sequence with
offset[i] = primary[i] + unit_normal * (depth_um * pixel_um) at every
index, and exactly the two connector segments first → shifted-first and
last → shifted-last; the primary point list is unchanged. -/
theorem create_roi_parallel_offset (st : AppState) (pixel_um depth_um : ℝ)
    (h : 2 ≤ st.points.length) :
    (app_create_roi st (some pixel_um) (some depth_um) false).shifted_points.length
        = st.points.length ∧
      (∀ i, (hi : i < st.points.length) →
        (hj : i < (app_create_roi st (some pixel_um) (some depth_um)
            false).shifted_points.length) →
        (app_create_roi st (some pixel_um) (some depth_um)
            false).shifted_points[i] =
          st.points[i] +
            (unitNormal (olsSlope st.points)).scale (depth_um * pixel_um)) ∧
      (app_create_roi st (some pixel_um) (some depth_um) false).roi_lines =
        [(st.points.headI,
          st.points.headI +
            (unitNormal (olsSlope st.points)).scale (depth_um * pixel_um)),
         (st.points.getLastI,
          st.points.getLastI +
            (unitNormal (olsSlope st.points)).scale (depth_um * pixel_um))] ∧
      (app_create_roi st (some pixel_um) (some depth_um) false).points =
        st.points := by
  have hnot : ¬ st.points.length < 2 := by omega
  have hne : st.points ≠ [] := by
    intro hnil
    rw [hnil] at h
    simp at h
  unfold app_create_roi
  simp only [hnot, if_false]
  refine ⟨?_, ?_, ?_, ?_⟩
  · simp
  · intro i hi hj
    simp [List.getElem_map]
  · simp [headI_map_ne_nil _ _ hne, getLastI_map_ne_nil _ _ hne]
  · simp

/-- Concrete MCD-viewer state used by the C2 witness. -/
noncomputable def appStC2 : AppState := ⟨[⟨0, 0⟩, ⟨10, 0⟩, ⟨20, 0⟩], [], []⟩

/-- Witness for C2 at three concrete points with pixel_um 1, depth_um 5. -/
theorem create_roi_parallel_offset_witness :
    2 ≤ appStC2.points.length ∧
      (app_create_roi appStC2 (some 1) (some 5) false).shifted_points.length
        = appStC2.points.length ∧
      (app_create_roi appStC2 (some 1) (some 5) false).points =
        appStC2.points :=
  ⟨by decide,
    (create_roi_parallel_offset appStC2 1 5 (by decide)).1,
    (create_roi_parallel_offset appStC2 1 5 (by decide)).2.2.2⟩

/-- C3 (divergence): the point at diagonal offset (7,7) from the query has
Manhattan distance 14 > 10; the Qt remove (src/main.py) keeps it, but the
web2 remove_point removes it, because its test is axis-wise
(|dx| > 10 or |dy| > 10, a Chebyshev ball) rather than Manhattan. -/
theorem remove_point_l1_divergence :
    manhattanLength (Point.mk 7 7 - Point.mk 0 0) = 14 ∧
      remove_near ⟨0, 0⟩ [⟨7, 7⟩] = [⟨7, 7⟩] ∧
      web2_remove_point ⟨0, 0⟩ [⟨7, 7⟩] = [] := by
  refine ⟨?_, ?_, ?_⟩
  · norm_num [manhattanLength]
  · norm_num [remove_near, manhattanLength, List.filter_cons]
  · norm_num [web2_remove_point, List.filter_cons]

/-- C4 (counterexample): with a fit failure on the length-2 input
[(0,0), (0,0)] (duplicate points), the web2 variant of
create_bezier_spline returns the empty list, not the raw input points. -/
theorem web2_spline_fallback_counterexample :
    web2_create_bezier_spline (fun _ => none) [⟨0, 0⟩, ⟨0, 0⟩] = [] ∧
      ([] : List Point) ≠ [⟨0, 0⟩, ⟨0, 0⟩] := by
  exact ⟨rfl, by simp⟩

/-- C4 (amended): when the spline fit fails on an input of length ≥ 2, the
Qt, Gradio and processor variants return the raw input points in their
original order, while the web2 variant returns the empty list; in both
cases the failure is caught locally and a plain list is returned, never an
error. -/
theorem spline_fallback_behavior
    (fit_spline : List Point → Option (List Point)) (points : List Point)
    (h : 2 ≤ points.length) (hf : fit_spline points = none) :
    create_bezier_spline fit_spline points = points ∧
      web2_create_bezier_spline fit_spline points = [] := by
  have hnot : ¬ points.length < 2 := by omega
  unfold create_bezier_spline web2_create_bezier_spline
  simp [hnot, hf]

/-- Witness for the amended C4 with an always-failing fit on two distinct
concrete points. -/
theorem spline_fallback_behavior_witness :
    2 ≤ ([⟨0, 0⟩, ⟨1, 1⟩] : List Point).length ∧
      (fun _ : List Point => (none : Option (List Point)))
        [⟨0, 0⟩, ⟨1, 1⟩] = none ∧
      (create_bezier_spline (fun _ => none) [⟨0, 0⟩, ⟨1, 1⟩] =
          [⟨0, 0⟩, ⟨1, 1⟩] ∧
        web2_create_bezier_spline (fun _ => none) [⟨0, 0⟩, ⟨1, 1⟩] = []) :=
  ⟨by decide, rfl, spline_fallback_behavior _ _ (by decide) rfl⟩

/-- C5 (divergence): starting from stored parameters (1, 10), a request
whose pixel_um parses to 5 but whose depth_um fails to parse returns the
400 validation failure — yet the stored pixel_um has already been set to 5
before the ValueError, so the prior state is not left unchanged.  The
desktop create_roi, by contrast, leaves its whole state unchanged on the
same parse failure. -/
theorem update_params_partial_update :
    web2_update_params ⟨[], [], 1, 10⟩ (some 5) none =
        (⟨[], [], 5, 10⟩, false) ∧
      (5 : ℝ) ≠ 1 ∧
      create_roi ⟨[⟨0, 0⟩, ⟨1, 0⟩], []⟩ (some 5) none =
        ⟨[⟨0, 0⟩, ⟨1, 0⟩], []⟩ :=
  ⟨rfl, by norm_num, rfl⟩

/-- C6 (counterexample): create_roi of src/main.py accepts the negative
depth -5 with scale 1: starting from an empty roi_lines it builds the
3-segment boundary instead of aborting, so a non-positive depth is
accepted for building the offset boundary. -/
theorem create_roi_negative_depth_accepted :
    (create_roi ⟨[⟨0, 0⟩, ⟨10, 0⟩], []⟩ (some 1)
        (some (-5))).roi_lines.length = 3 ∧
      ¬ (0 : ℝ) < -5 :=
  ⟨rfl, by norm_num⟩

/-- C6 (amended): there is no positivity validation: for any parsed scale
and depth values, including zero or negative ones, linear-style create_roi
proceeds and builds the 3-segment offset boundary (a negative depth simply
offsets to the opposite side, the signed-depth design of the normal);
only parse failures abort. -/
theorem create_roi_nonpositive_accepted (st : MainState)
    (pixel_um depth_um : ℝ) (h : 2 ≤ st.points.length)
    (hnp : pixel_um ≤ 0 ∨ depth_um ≤ 0) :
    (create_roi st (some pixel_um) (some depth_um)).roi_lines.length = 3 := by
  have hnot : ¬ st.points.length < 2 := by omega
  unfold create_roi
  simp [hnot]

/-- Concrete desktop state used by the C6 witness. -/
noncomputable def mainStC6 : MainState := ⟨[⟨0, 0⟩, ⟨5, 5⟩], []⟩

/-- Witness for the amended C6 with a negative depth at two concrete
points. -/
theorem create_roi_nonpositive_accepted_witness :
    2 ≤ mainStC6.points.length ∧ ((1 : ℝ) ≤ 0 ∨ (-5 : ℝ) ≤ 0) ∧
      (create_roi mainStC6 (some 1) (some (-5))).roi_lines.length = 3 :=
  ⟨by decide, by norm_num,
    create_roi_nonpositive_accepted mainStC6 1 (-5) (by decide)
      (by norm_num)⟩

/-- C7 (counterexample): with a single point, the web2 create_roi endpoint
is not silent: it answers with the 400 'Not enough points to create ROI'
error (the false flag), although the state is left unchanged. -/
theorem web2_create_roi_single_point_error :
    web2_create_roi ⟨[⟨3, 4⟩], [], 1, 10⟩ =
      (⟨[⟨3, 4⟩], [], 1, 10⟩, false) := rfl

/-- C7 (amended): with fewer than 2 points, every variant leaves its state
unchanged and curve fitting yields the empty curve; the Qt, MCD-viewer and
processor variants return silently with no error signal, while the web2
variant responds with a 400 error message to the caller. -/
theorem few_points_noop (st : MainState) (a : AppState) (w : Web2State)
    (pr : ProcState) (ps : List Point)
    (fit_spline : List Point → Option (List Point))
    (pixel_um depth_um : ℝ) (opu odu : Option ℝ) (radio_linear : Bool)
    (hm : st.points.length < 2) (ha : a.points.length < 2)
    (hw : w.points.length < 2) (hp : pr.points.length < 2)
    (hps : ps.length < 2) :
    create_roi st opu odu = st ∧
      app_create_roi a opu odu radio_linear = a ∧
      processor_create_roi pr pixel_um depth_um = pr ∧
      web2_create_roi w = (w, false) ∧
      create_bezier_spline fit_spline ps = [] ∧
      web2_create_bezier_spline fit_spline ps = [] := by
  unfold create_roi app_create_roi processor_create_roi web2_create_roi
    create_bezier_spline web2_create_bezier_spline
  simp [hm, ha, hw, hp, hps]

/-- Concrete desktop state used by the C7 witness. -/
noncomputable def mainStC7 : MainState := ⟨[⟨1, 2⟩], []⟩

/-- Concrete MCD-viewer state used by the C7 witness. -/
noncomputable def appStC7 : AppState := ⟨[], [], []⟩

/-- Concrete Flask state used by the C7 witness. -/
noncomputable def web2StC7 : Web2State := ⟨[⟨1, 2⟩], [], 1, 10⟩

/-- Concrete processor state used by the C7 witness. -/
noncomputable def procStC7 : ProcState := ⟨[⟨1, 2⟩], []⟩

/-- Witness for the amended C7 at concrete sub-2-point states. -/
theorem few_points_noop_witness :
    mainStC7.points.length < 2 ∧ appStC7.points.length < 2 ∧
      web2StC7.points.length < 2 ∧ procStC7.points.length < 2 ∧
      ([] : List Point).length < 2 ∧
      (create_roi mainStC7 (some 1) (some 5) = mainStC7 ∧
        app_create_roi appStC7 (some 1) (some 5) true = appStC7 ∧
        processor_create_roi procStC7 1 5 = procStC7 ∧
        web2_create_roi web2StC7 = (web2StC7, false) ∧
        create_bezier_spline (fun _ => none) [] = [] ∧
        web2_create_bezier_spline (fun _ => none) [] = []) :=
  ⟨by decide, by decide, by decide, by decide, by decide,
    few_points_noop mainStC7 appStC7 web2StC7 procStC7 []
      (fun _ => none) 1 5 (some 1) (some 5) true
      (by decide) (by decide) (by decide) (by decide) (by decide)⟩

/-- C9 (divergence): after parallel-curve create_roi on points
(0,0), (10,0) with pixel_um 1 and depth_um 5, reset_roi of src/app.py
clears the connector segments but leaves the 2-point parallel-offset
sequence in shifted_points (which update_display keeps rendering as a
second curve), so the offset construction is not fully removed; the
primary points do survive. -/
theorem reset_roi_leaves_shifted_points :
    (app_reset_roi (app_create_roi ⟨[⟨0, 0⟩, ⟨10, 0⟩], [], []⟩
        (some 1) (some 5) false)).shifted_points.length = 2 ∧
      (app_reset_roi (app_create_roi ⟨[⟨0, 0⟩, ⟨10, 0⟩], [], []⟩
        (some 1) (some 5) false)).roi_lines = [] ∧
      (app_reset_roi (app_create_roi ⟨[⟨0, 0⟩, ⟨10, 0⟩], [], []⟩
        (some 1) (some 5) false)).points = [⟨0, 0⟩, ⟨10, 0⟩] :=
  ⟨rfl, rfl, rfl⟩
